import Mathlib

/-!
Shallow embedding of the renderer in src/index.ts.

The program holds a hard-coded array of person records (complexArray),
looks up a single output container in the DOM, and, when the container
exists, iterates over the records in order, building one card element
per record from a template string and appending it to the container.

DOM modelling: a card element is its class list together with its
innerHTML string; the container is the list of its child cards, and the
container lookup result is an Option of that list (none when the element
with id "people-list" is absent).  JS nullish values: score has type
number-or-null, embedded as Option Int (none = null); status has type
string-or-null-or-undefined, embedded as the three-valued StatusField.
-/

/-- Embeds interface AddressDetails (src/index.ts lines 5-23). -/
structure AddressDetails where
  address : String
  city : String
  zipCode : Int
deriving Repr, DecidableEq

/-- Embeds the type string-or-null-or-undefined of the status field
(src/index.ts line 76): a JS value that is a string, null, or undefined. -/
inductive StatusField where
  | str : String → StatusField
  | nullV : StatusField
  | undefinedV : StatusField
deriving Repr, DecidableEq

/-- Embeds a JS Date as the calendar date it denotes, as constructed from
an ISO date string such as new Date("1998-05-15"). -/
structure SimpleDate where
  year : Int
  month : Nat
  day : Nat
deriving Repr, DecidableEq

/-- Embeds interface Person (src/index.ts lines 30-89).  The greet method
captures this.name; it is embedded as a function from the name, applied
to the name of the record at the call site person.greet(). -/
structure Person where
  id : Int
  name : String
  isActive : Bool
  age : Int
  skills : List String
  details : AddressDetails
  score : Option Int
  status : StatusField
  birthdate : SimpleDate
  greet : String → String

/-- First record of complexArray (src/index.ts lines 96-113). -/
def alice : Person where
  id := 1
  name := "Alice"
  isActive := true
  age := 25
  skills := ["JavaScript", "TypeScript", "React"]
  details := { address := "123 Main St", city := "Wonderland", zipCode := 12345 }
  score := none
  status := StatusField.undefinedV
  birthdate := { year := 1998, month := 5, day := 15 }
  greet := fun name => "Hello, I\x27m " ++ name

/-- Second record of complexArray (src/index.ts lines 114-131). -/
def bob : Person where
  id := 2
  name := "Bob"
  isActive := false
  age := 30
  skills := ["Python", "Django", "Machine Learning"]
  details := { address := "456 Side St", city := "Shire", zipCode := 54321 }
  score := some 100
  status := StatusField.nullV
  birthdate := { year := 1993, month := 8, day := 20 }
  greet := fun name => "Hello, I\x27m " ++ name

/-- Third record of complexArray (src/index.ts lines 132-149). -/
def charlie : Person where
  id := 3
  name := "Charlie"
  isActive := true
  age := 28
  skills := ["Java", "Spring Boot", "Kotlin"]
  details := { address := "789 Circle Dr", city := "Gotham", zipCode := 67890 }
  score := some 85
  status := StatusField.undefinedV
  birthdate := { year := 1995, month := 2, day := 10 }
  greet := fun name => "Hello, I\x27m " ++ name

/-- Embeds const complexArray (src/index.ts lines 95-150). -/
def complexArray : List Person := [alice, bob, charlie]

/-- Embeds the full English month name used by
Date.toLocaleDateString with locale en-GB and option month long. -/
def monthLongEnGB : Nat → String
  | 1 => "January"
  | 2 => "February"
  | 3 => "March"
  | 4 => "April"
  | 5 => "May"
  | 6 => "June"
  | 7 => "July"
  | 8 => "August"
  | 9 => "September"
  | 10 => "October"
  | 11 => "November"
  | 12 => "December"
  | _ => ""

/-- Embeds person.birthdate.toLocaleDateString with locale en-GB and
options day numeric, month long, year numeric (src/index.ts lines
177-181): day as a number, full month name, full year. -/
def formattedBirthdate (d : SimpleDate) : String :=
  toString d.day ++ " " ++ monthLongEnGB d.month ++ " " ++ toString d.year

/-- Embeds the interpolation of person.status ?? "N/A" into the template
(src/index.ts line 192): the string value when the field holds a string,
the literal "N/A" when it is null or undefined. -/
def displayStatus : StatusField → String
  | StatusField.str s => s
  | StatusField.nullV => "N/A"
  | StatusField.undefinedV => "N/A"

/-- Embeds the interpolation of person.score ?? "N/A" into the template
(src/index.ts line 193): the number rendered as a string when present,
the literal "N/A" when the field is null. -/
def displayScore : Option Int → String
  | some n => toString n
  | none => "N/A"

/-- Embeds person.skills.map of skill to a li element (src/index.ts
line 197), before the join with the empty separator. -/
def skillItems (p : Person) : List String :=
  p.skills.map (fun skill => "<li>" ++ skill ++ "</li>")

/-- Embeds the joined skills markup (src/index.ts line 197). -/
def skillsHTML (p : Person) : String :=
  String.join (skillItems p)

/-- Embeds the template string assigned to personCard.innerHTML
(src/index.ts lines 188-200), whitespace included. -/
def cardHTML (p : Person) : String :=
  "\n      <h3>" ++ p.name ++ "</h3>\n      <p><strong>Age:</strong> "
    ++ toString p.age
    ++ "</p>\n      <p><strong>Address:</strong> " ++ p.details.address ++ ", "
    ++ p.details.city ++ " " ++ toString p.details.zipCode
    ++ "</p>\n      <p><strong>Status:</strong> " ++ displayStatus p.status
    ++ "</p>\n      <p><strong>Score:</strong> " ++ displayScore p.score
    ++ "</p>\n      <p><strong>Birthdate:</strong> " ++ formattedBirthdate p.birthdate
    ++ "</p>\n      <p><strong>Skills:</strong></p>\n      <ul class=\"skills\">\n        "
    ++ skillsHTML p
    ++ "\n      </ul>\n      <p class=\"greet\"><strong>Greet:</strong> "
    ++ p.greet p.name ++ "</p>\n    "

/-- Embeds a DOM element as rendered by the loop body: its class list
and its innerHTML string (src/index.ts lines 169-200). -/
structure Card where
  classes : List String
  innerHTML : String

/-- Embeds the body of complexArray.forEach (src/index.ts lines 164-200):
createElement div, classList.add "person-card", assign innerHTML. -/
def renderPerson (p : Person) : Card :=
  { classes := ["person-card"], innerHTML := cardHTML p }

/-- Embeds one loop iteration ending in appendChild (src/index.ts line
206): the container child list gains the new card at the end. -/
def renderStep (children : List Card) (p : Person) : List Card :=
  children ++ [renderPerson p]

/-- Embeds the guarded rendering (src/index.ts lines 156-207): when the
container lookup found nothing, nothing happens; otherwise the forEach
appends one card per record to the container child list. -/
def render (records : List Person) (container : Option (List Card)) :
    Option (List Card) :=
  match container with
  | none => none
  | some children => some (records.foldl renderStep children)

/-- The mutable store the program can reach: the record array and the
child list of the people-list element (none when the element is absent). -/
structure ProgState where
  complexArray : List Person
  peopleList : Option (List Card)

/-- Embeds the whole top-level program (src/index.ts lines 156-207) as a
transformer of the reachable store. -/
def runProgram (s : ProgState) : ProgState :=
  { s with peopleList := render s.complexArray s.peopleList }

/-- Helper: the fold of renderStep appends exactly the mapped cards. -/
theorem foldl_renderStep_eq (records : List Person) (children : List Card) :
    records.foldl renderStep children = children ++ records.map renderPerson := by
  induction records generalizing children with
  | nil => simp
  | cons p ps ih =>
    simp only [List.foldl_cons, List.map_cons, ih, renderStep]
    simp

/-- C1: rendering with a present container appends exactly one fragment
per record, and the fragment at offset i past the existing children is
built from the record at index i, so display order equals record order. -/
theorem render_count_and_order (records : List Person) (children : List Card) :
    ∃ out, render records (some children) = some out ∧
      out.length = children.length + records.length ∧
      ∀ i, out[children.length + i]? = (records[i]?).map renderPerson := by
  refine ⟨records.foldl renderStep children, rfl, ?_, ?_⟩
  · rw [foldl_renderStep_eq]
    simp
  · intro i
    rw [foldl_renderStep_eq, List.getElem?_append_right (by omega)]
    simp [List.getElem?_map]

/-- C2: when the container lookup found nothing, the program is a no-op:
the reachable store is unchanged and no fragment list is produced. -/
theorem render_noop_when_container_absent (s : ProgState)
    (h : s.peopleList = none) :
    runProgram s = s ∧ render s.complexArray s.peopleList = none := by
  rcases s with ⟨arr, pl⟩
  simp only at h
  subst h
  exact ⟨rfl, rfl⟩

/-- Witness for C2 at a concrete store with the container absent. -/
theorem render_noop_when_container_absent_witness :
    runProgram ⟨complexArray, none⟩ = ⟨complexArray, none⟩ ∧
      render complexArray none = none :=
  render_noop_when_container_absent ⟨complexArray, none⟩ rfl

/-- C3: the displayed status and score are the field value rendered as a
string when present and the literal "N/A" when absent; the record with
score null and status undefined shows "N/A" for both, and the record
with score 100 shows "100". -/
theorem display_status_score_defaults (s : String) (n : Int) :
    displayStatus (StatusField.str s) = s ∧
    displayScore (some n) = toString n ∧
    displayStatus StatusField.undefinedV = "N/A" ∧
    displayScore none = "N/A" ∧
    displayStatus alice.status = "N/A" ∧
    displayScore alice.score = "N/A" ∧
    displayScore bob.score = "100" :=
  ⟨rfl, rfl, rfl, rfl, rfl, rfl, by decide⟩

/-- C4: the birthdate is formatted as day, full month name, year under
the fixed en-GB display locale; the birthdate 1998-05-15 of the first
record displays as "15 May 1998". -/
theorem birthdate_format_enGB (d : SimpleDate) :
    formattedBirthdate d =
      toString d.day ++ " " ++ monthLongEnGB d.month ++ " " ++ toString d.year ∧
    alice.birthdate = { year := 1998, month := 5, day := 15 } ∧
    formattedBirthdate { year := 1998, month := 5, day := 15 } = "15 May 1998" ∧
    formattedBirthdate alice.birthdate = "15 May 1998" ∧
    formattedBirthdate bob.birthdate = "20 August 1993" ∧
    formattedBirthdate charlie.birthdate = "10 February 1995" :=
  ⟨rfl, rfl, by decide, by decide, by decide, by decide⟩

/-- C5: the rendered skills list has exactly one li entry per skill
string, in record order, none added or dropped, and an empty skills
list renders as the empty string. -/
theorem skills_one_entry_per_skill (p : Person) :
    (skillItems p).length = p.skills.length ∧
    (∀ i : Nat, (skillItems p)[i]? =
      (p.skills[i]?).map (fun skill => "<li>" ++ skill ++ "</li>")) ∧
    (p.skills = [] → skillsHTML p = "") := by
  refine ⟨by simp [skillItems], ?_, ?_⟩
  · intro i
    simp [skillItems, List.getElem?_map]
  · intro h
    simp [skillsHTML, skillItems, h, String.join]

/-- Witness for C5 at a concrete record with an empty skills list. -/
theorem skills_one_entry_per_skill_witness :
    skillsHTML { alice with skills := [] } = "" :=
  (skills_one_entry_per_skill { alice with skills := [] }).2.2 rfl

/-- C6: the id of every record in complexArray is unique: records at
two distinct valid positions have different id values. -/
theorem record_ids_unique (i j : Nat)
    (hi : i < complexArray.length) (hj : j < complexArray.length)
    (hne : i ≠ j) :
    (complexArray.get ⟨i, hi⟩).id ≠ (complexArray.get ⟨j, hj⟩).id := by
  have hl : complexArray.length = 3 := rfl
  rw [hl] at hi hj
  interval_cases i <;> interval_cases j <;>
    first
    | omega
    | simp [complexArray, alice, bob, charlie, List.get]

/-- Witness for C6 at positions 0 and 1. -/
theorem record_ids_unique_witness :
    (complexArray.get ⟨0, by decide⟩).id ≠ (complexArray.get ⟨1, by decide⟩).id :=
  record_ids_unique 0 1 (by decide) (by decide) (by decide)

/-- C7: for every record of the program, greet is a pure function of the
name: applied to any name it returns the fixed greeting string, and on
the record itself it returns the greeting of the record name. -/
theorem greet_pure_function_of_name (p : Person) (hp : p ∈ complexArray) :
    (∀ s, p.greet s = "Hello, I\x27m " ++ s) ∧
    p.greet p.name = "Hello, I\x27m " ++ p.name := by
  simp only [complexArray, List.mem_cons, List.not_mem_nil, or_false] at hp
  rcases hp with rfl | rfl | rfl <;> exact ⟨fun s => rfl, rfl⟩

/-- Witness for C7 at the first record. -/
theorem greet_pure_function_of_name_witness :
    alice.greet alice.name = "Hello, I\x27m Alice" := by
  have h := greet_pure_function_of_name alice (by simp [complexArray])
  exact h.2.trans rfl

/-- C8: running the program never mutates any record: a record present
at position i before the run is still there afterwards with every field
unchanged. -/
theorem render_mutates_no_record (s : ProgState) (i : Nat) (p : Person)
    (h : s.complexArray[i]? = some p) :
    ∃ q, (runProgram s).complexArray[i]? = some q ∧
      q.id = p.id ∧ q.name = p.name ∧ q.isActive = p.isActive ∧
      q.age = p.age ∧ q.skills = p.skills ∧ q.details = p.details ∧
      q.score = p.score ∧ q.status = p.status ∧ q.birthdate = p.birthdate :=
  ⟨p, h, rfl, rfl, rfl, rfl, rfl, rfl, rfl, rfl, rfl⟩

/-- Witness for C8 at the first record with the container present. -/
theorem render_mutates_no_record_witness :
    ∃ q, (runProgram ⟨complexArray, some []⟩).complexArray[0]? = some q ∧
      q.id = alice.id ∧ q.name = alice.name ∧ q.isActive = alice.isActive ∧
      q.age = alice.age ∧ q.skills = alice.skills ∧ q.details = alice.details ∧
      q.score = alice.score ∧ q.status = alice.status ∧
      q.birthdate = alice.birthdate :=
  render_mutates_no_record ⟨complexArray, some []⟩ 0 alice rfl

/-- C9: rendering only appends: the children the container held before
are preserved unchanged and in place, and the new fragments all come
after them, in record order. -/
theorem render_preserves_existing_children
    (records : List Person) (children : List Card) :
    ∃ out, render records (some children) = some out ∧
      out.take children.length = children ∧
      out.drop children.length = records.map renderPerson := by
  refine ⟨_, rfl, ?_, ?_⟩
  · rw [foldl_renderStep_eq, List.take_left]
  · rw [foldl_renderStep_eq, List.drop_left]

/-- C10: the second record has a status field that is present but null,
and it displays "N/A", exactly as the undefined (absent) case does. -/
theorem null_status_displays_na :
    bob.status = StatusField.nullV ∧
    displayStatus bob.status = "N/A" ∧
    displayStatus StatusField.nullV = displayStatus StatusField.undefinedV :=
  ⟨rfl, rfl, rfl⟩
